import Mathlib

/-!
Shallow embedding of the Task Nudge scheduler core (state manager, git
snapshot classifier, activity debouncer and ping flow) together with
theorems checking the specification's claims against the code.
-/

/-- Blocker type reported by the user, from types.ts. -/
inductive BlockerType where
  | none
  | waiting_for_person
  | waiting_for_process
  | other
deriving DecidableEq, Repr

/-- Durable session record, from the SessionState interface in types.ts. -/
structure SessionState where
  lastTaskDescription : Option String
  lastUnclear : Option String
  lastTried : Option String
  lastTeammate : Option String
  lastBlocker : Option String
  blockerType : BlockerType
  isWaiting : Bool
  baseIntervalMs : Nat
  currentIntervalMs : Nat
  maxIntervalMs : Nat
  idleThresholdMs : Nat
  lastActivityAt : Nat
  pingScheduledAt : Option Nat
deriving DecidableEq, Repr

/-- Dialog result, from the QuestionDialogResult interface in types.ts:
optional answers plus a mandatory blocker type. -/
structure QuestionDialogResult where
  taskDescription : Option String
  unclear : Option String
  tried : Option String
  teammate : Option String
  blocker : Option String
  blockerType : BlockerType
deriving DecidableEq, Repr

/-- Conditional field update from state.ts lines 57-71: a dialog answer
overwrites the stored answer only when it is defined. -/
def updatedField (newVal old : Option String) : Option String :=
  match newVal with
  | some v => some v
  | Option.none => old

/-- StateManager.updateStateFromDialog from state.ts lines 55-92, as a pure
state transformer. -/
def updateStateFromDialog (state : SessionState) (dialogResult : QuestionDialogResult) :
    SessionState :=
  let s1 : SessionState :=
    { state with
      lastTaskDescription := updatedField dialogResult.taskDescription state.lastTaskDescription
      lastUnclear := updatedField dialogResult.unclear state.lastUnclear
      lastTried := updatedField dialogResult.tried state.lastTried
      lastTeammate := updatedField dialogResult.teammate state.lastTeammate
      lastBlocker := updatedField dialogResult.blocker state.lastBlocker }
  let wasWaiting := s1.isWaiting
  let s2 : SessionState := { s1 with blockerType := dialogResult.blockerType }
  if dialogResult.blockerType = BlockerType.waiting_for_person ∨
      dialogResult.blockerType = BlockerType.waiting_for_process then
    if wasWaiting = false then
      { s2 with
        currentIntervalMs := min (s2.currentIntervalMs + s2.baseIntervalMs) s2.maxIntervalMs
        isWaiting := true }
    else
      s2
  else
    { s2 with currentIntervalMs := s2.baseIntervalMs, isWaiting := false }

/-- StateManager.updateIntervalsFromConfig from state.ts lines 97-113. -/
def updateIntervalsFromConfig (state : SessionState)
    (baseMinutes maxMinutes idleSeconds : Nat) : SessionState :=
  let newBaseMs := baseMinutes * 60 * 1000
  let newMaxMs := maxMinutes * 60 * 1000
  let newIdleMs := idleSeconds * 1000
  let s1 : SessionState :=
    if state.isWaiting = false ∧ state.baseIntervalMs ≠ newBaseMs then
      { state with currentIntervalMs := newBaseMs }
    else
      state
  let s2 : SessionState :=
    { s1 with baseIntervalMs := newBaseMs, maxIntervalMs := newMaxMs,
              idleThresholdMs := newIdleMs }
  { s2 with currentIntervalMs := min s2.currentIntervalMs s2.maxIntervalMs }

/-- Stored partial session record, from workspaceState.get of a
Partial SessionState in state.ts line 14: every field may be absent. -/
structure StoredState where
  lastTaskDescription : Option String
  lastUnclear : Option String
  lastTried : Option String
  lastTeammate : Option String
  lastBlocker : Option String
  blockerType : Option BlockerType
  isWaiting : Option Bool
  baseIntervalMs : Option Nat
  currentIntervalMs : Option Nat
  maxIntervalMs : Option Nat
  idleThresholdMs : Option Nat
  lastActivityAt : Option Nat
  pingScheduledAt : Option (Option Nat)
deriving DecidableEq, Repr

/-- Empty stored record, the default of workspaceState.get in state.ts. -/
def emptyStored : StoredState :=
  { lastTaskDescription := Option.none, lastUnclear := Option.none,
    lastTried := Option.none, lastTeammate := Option.none,
    lastBlocker := Option.none, blockerType := Option.none,
    isWaiting := Option.none, baseIntervalMs := Option.none,
    currentIntervalMs := Option.none, maxIntervalMs := Option.none,
    idleThresholdMs := Option.none, lastActivityAt := Option.none,
    pingScheduledAt := Option.none }

/-- JavaScript numeric fallback `stored.x || d`: an absent field and a zero
field are both falsy and replaced by the default. -/
def numOrDefault (x : Option Nat) (d : Nat) : Nat :=
  match x with
  | some v => if v = 0 then d else v
  | Option.none => d

/-- StateManager.loadState from state.ts lines 13-31, with the load time
passed explicitly for Date.now(). -/
def loadState (stored : Option StoredState) (now : Nat) : SessionState :=
  let st := stored.getD emptyStored
  { lastTaskDescription := st.lastTaskDescription
    lastUnclear := st.lastUnclear
    lastTried := st.lastTried
    lastTeammate := st.lastTeammate
    lastBlocker := st.lastBlocker
    blockerType := st.blockerType.getD BlockerType.none
    isWaiting := st.isWaiting.getD false
    baseIntervalMs := numOrDefault st.baseIntervalMs (15 * 60 * 1000)
    currentIntervalMs := numOrDefault st.currentIntervalMs (15 * 60 * 1000)
    maxIntervalMs := numOrDefault st.maxIntervalMs (60 * 60 * 1000)
    idleThresholdMs := numOrDefault st.idleThresholdMs (3 * 60 * 1000)
    lastActivityAt := now
    pingScheduledAt := Option.none }

/-- Git snapshot, from the GitSnapshot interface in types.ts. -/
structure GitSnapshot where
  timestamp : Nat
  changedFiles : List String
  additions : Nat
  deletions : Nat
  summary : String
deriving DecidableEq, Repr

/-- Result shape of GitSnapshotManager.compareWithLast, from
gitSnapshot.ts lines 53-59. -/
structure CompareResult where
  hasChanges : Bool
  newFiles : List String
  changedFilesSinceLastPing : List String
  isStuck : Bool
  description : String
deriving DecidableEq, Repr

/-- GitSnapshotManager.arraysEqual from gitSnapshot.ts lines 103-110:
length check, then elementwise comparison of the two sorted copies;
insertionSort models the JS Array.sort on strings. -/
def arraysEqual (a b : List String) : Bool :=
  if a.length ≠ b.length then
    false
  else
    decide (List.insertionSort (fun x y => x ≤ y) a =
      List.insertionSort (fun x y => x ≤ y) b)

/-- GitSnapshotManager.compareWithLast from gitSnapshot.ts lines 53-98, as
a pure function of the last and current snapshots. -/
def compareWithLast (lastSnapshot : Option GitSnapshot) (currentSnapshot : GitSnapshot) :
    CompareResult :=
  match lastSnapshot with
  | Option.none =>
    { hasChanges := decide (currentSnapshot.changedFiles.length > 0)
      newFiles := currentSnapshot.changedFiles
      changedFilesSinceLastPing := []
      isStuck := false
      description := currentSnapshot.summary }
  | some lastSnap =>
    let newFiles := currentSnapshot.changedFiles.filter
      (fun file => !(lastSnap.changedFiles.contains file))
    let isStuck := arraysEqual lastSnap.changedFiles currentSnapshot.changedFiles
    let description :=
      if isStuck = true ∧ currentSnapshot.changedFiles.length = 0 then
        "Никаких изменений с последнего раза. Возможно, ты застрял?"
      else if isStuck = true ∧ currentSnapshot.changedFiles.length > 0 then
        "Те же файлы что и в прошлый раз: " ++ currentSnapshot.summary ++
          ". Продвижения не видно."
      else if newFiles.length > 0 then
        "Новые изменения: " ++ String.intercalate ", " newFiles ++ ". " ++
          currentSnapshot.summary
      else
        currentSnapshot.summary
    { hasChanges := decide (currentSnapshot.changedFiles.length > 0)
      newFiles := newFiles
      changedFilesSinceLastPing := newFiles
      isStuck := isStuck
      description := description }

/-- Extension-level mutable state: the session record plus whether the
one-shot ping timer handle is currently set (pingTimeout in part_001). -/
structure ExtState where
  sessionState : SessionState
  pingTimeout : Bool
deriving DecidableEq, Repr

/-- TaskNudgeExtension.cancelScheduledPing from part_001 lines 315-322:
clearing happens only when the timer handle is set. -/
def cancelScheduledPing (e : ExtState) : ExtState :=
  if e.pingTimeout = true then
    { e with
      pingTimeout := false
      sessionState := { e.sessionState with pingScheduledAt := Option.none } }
  else
    e

/-- TaskNudgeExtension.updateActivity from part_001 lines 265-268, with the
current time passed explicitly for Date.now(). -/
def updateActivity (now : Nat) (e : ExtState) : ExtState :=
  cancelScheduledPing
    { e with sessionState := { e.sessionState with lastActivityAt := now } }

/-- Outcome of one ping: the resulting extension state and whether a new
git snapshot was persisted. -/
structure PingResult where
  finalState : ExtState
  snapshotPersisted : Bool
deriving DecidableEq, Repr

/-- TaskNudgeExtension.showPing from part_001 lines 327-358: the timer
fields are cleared first; the session state is mutated and a snapshot is
persisted only when the dialog returned a result (an undefined dialog
result is the user's cancellation). -/
def showPing (e : ExtState) (dialogResult : Option QuestionDialogResult) : PingResult :=
  let e1 : ExtState :=
    { e with
      pingTimeout := false
      sessionState := { e.sessionState with pingScheduledAt := Option.none } }
  match dialogResult with
  | some result =>
    { finalState :=
        { e1 with sessionState := updateStateFromDialog e1.sessionState result }
      snapshotPersisted := true }
  | Option.none =>
    { finalState := e1, snapshotPersisted := false }

/-- GitManager.getChangedFiles from part_003 lines 20-33: the chosen
provider call (extension API when the git extension is active, CLI
otherwise) may fail; any failure is caught and an empty list returned. -/
def getChangedFiles (extensionActive : Bool)
    (fromExtension fromCli : Except String (List String)) : List String :=
  match (if extensionActive = true then fromExtension else fromCli) with
  | Except.ok files => files
  | Except.error _ => []

/-- GitSnapshotManager.getCurrentSnapshot from gitSnapshot.ts lines 20-31,
with the provider outcome and time passed explicitly. -/
def getCurrentSnapshot (now : Nat) (extensionActive : Bool)
    (fromExtension fromCli : Except String (List String)) (summary : String) :
    GitSnapshot :=
  { timestamp := now
    changedFiles := getChangedFiles extensionActive fromExtension fromCli
    additions := 0
    deletions := 0
    summary := summary }

/-- Modelled from the spec: removedFiles, the set difference
previous.changedFiles minus current.changedFiles, which the spec's
ProgressResult carries but compareWithLast does not compute. -/
def specRemovedFiles (previous current : List String) : List String :=
  previous.filter (fun f => !(current.contains f))

/-- Dialog result carrying no answers and reporting no blocker. -/
def noneDialog : QuestionDialogResult :=
  { taskDescription := Option.none, unclear := Option.none, tried := Option.none,
    teammate := Option.none, blocker := Option.none, blockerType := BlockerType.none }

/-- Dialog result reporting an external wait on a person. -/
def waitDialog : QuestionDialogResult :=
  { noneDialog with blockerType := BlockerType.waiting_for_person }

/-- Session state whose base interval exceeds its max interval, admissible
for the interval fields hold arbitrary numbers at the write paths. -/
def badState : SessionState :=
  { lastTaskDescription := Option.none, lastUnclear := Option.none,
    lastTried := Option.none, lastTeammate := Option.none, lastBlocker := Option.none,
    blockerType := BlockerType.none, isWaiting := false,
    baseIntervalMs := 2000, currentIntervalMs := 1000, maxIntervalMs := 1000,
    idleThresholdMs := 0, lastActivityAt := 0, pingScheduledAt := Option.none }

/-- Non-waiting session state with the current interval above the base. -/
def driftedState : SessionState :=
  { badState with
    baseIntervalMs := 1000, currentIntervalMs := 2000,
    maxIntervalMs := 4000 }

/-- Non-waiting session state at its base interval, below the max. -/
def idleBaseState : SessionState :=
  { badState with
    baseIntervalMs := 1000, currentIntervalMs := 1000,
    maxIntervalMs := 3000 }

/-- Snapshot over the files a.ts and b.ts. -/
def snapPrevA : GitSnapshot :=
  { timestamp := 0, changedFiles := ["a.ts", "b.ts"], additions := 0,
    deletions := 0, summary := "s" }

/-- Snapshot over the files a.ts and c.ts. -/
def snapPrevB : GitSnapshot :=
  { timestamp := 0, changedFiles := ["a.ts", "c.ts"], additions := 0,
    deletions := 0, summary := "s" }

/-- Snapshot over the single file a.ts. -/
def snapCur : GitSnapshot :=
  { timestamp := 0, changedFiles := ["a.ts"], additions := 0,
    deletions := 0, summary := "s" }

/-- Snapshot over b.ts and a.ts in the other insertion order. -/
def snapSwapped : GitSnapshot :=
  { timestamp := 0, changedFiles := ["b.ts", "a.ts"], additions := 0,
    deletions := 0, summary := "t" }

/-- Extension state with an armed ping timer. -/
def armedExt : ExtState :=
  { sessionState := { idleBaseState with pingScheduledAt := some 42 },
    pingTimeout := true }

/-- Sorting both lists and comparing them, after the length check, decides
exactly permutation equivalence of the two file lists. -/
theorem arraysEqual_eq_true_iff_perm (a b : List String) :
    arraysEqual a b = true ↔ a.Perm b := by
  unfold arraysEqual
  split
  · rename_i hlen
    constructor
    · intro h
      exact absurd h (by simp)
    · intro hperm
      exact absurd hperm.length_eq hlen
  · simp only [decide_eq_true_eq]
    constructor
    · intro hsort
      have h1 : List.Perm a (List.insertionSort (fun x y => x ≤ y) a) :=
        (List.perm_insertionSort _ a).symm
      rw [hsort] at h1
      exact h1.trans (List.perm_insertionSort _ b)
    · intro hperm
      exact List.eq_of_perm_of_sorted
        (((List.perm_insertionSort _ a).trans hperm).trans
          (List.perm_insertionSort _ b).symm)
        (List.sorted_insertionSort _ a)
        (List.sorted_insertionSort _ b)

/-- The isStuck field of a comparison against a present snapshot is the
arraysEqual test on the two file lists. -/
theorem compareWithLast_isStuck_eq (prev cur : GitSnapshot) :
    (compareWithLast (some prev) cur).isStuck =
      arraysEqual prev.changedFiles cur.changedFiles := rfl

/-- Activity always stamps the signal time into lastActivityAt. -/
theorem updateActivity_lastActivityAt (t : Nat) (a : ExtState) :
    (updateActivity t a).sessionState.lastActivityAt = t := by
  by_cases h : a.pingTimeout = true <;>
    simp [updateActivity, cancelScheduledPing, h]

/-- Activity always leaves the ping timer disarmed. -/
theorem updateActivity_pingTimeout (t : Nat) (a : ExtState) :
    (updateActivity t a).pingTimeout = false := by
  by_cases h : a.pingTimeout = true <;>
    simp [updateActivity, cancelScheduledPing, h]

/-- Activity on an armed timer clears pingScheduledAt. -/
theorem updateActivity_pingScheduledAt_of_armed (t : Nat) (a : ExtState)
    (h : a.pingTimeout = true) :
    (updateActivity t a).sessionState.pingScheduledAt = Option.none := by
  simp [updateActivity, cancelScheduledPing, h]

/-- Activity on a disarmed timer leaves pingScheduledAt untouched. -/
theorem updateActivity_pingScheduledAt_of_unarmed (t : Nat) (a : ExtState)
    (h : a.pingTimeout = false) :
    (updateActivity t a).sessionState.pingScheduledAt =
      a.sessionState.pingScheduledAt := by
  simp [updateActivity, cancelScheduledPing, h]

/-- A disarmed state with no scheduled ping stays that way under any
further stream of activity signals. -/
theorem foldl_updateActivity_ps_none (ts : List Nat) (a : ExtState)
    (hpt : a.pingTimeout = false)
    (hps : a.sessionState.pingScheduledAt = Option.none) :
    (List.foldl (fun e t => updateActivity t e) a ts).sessionState.pingScheduledAt =
      Option.none ∧
    (List.foldl (fun e t => updateActivity t e) a ts).pingTimeout = false := by
  induction ts generalizing a with
  | nil => exact ⟨hps, hpt⟩
  | cons t rest ih =>
    simp only [List.foldl_cons]
    exact ih (updateActivity t a) (updateActivity_pingTimeout t a)
      ((updateActivity_pingScheduledAt_of_unarmed t a hpt).trans hps)

/-- C1: for every state with baseIntervalMs ≤ maxIntervalMs, reporting an
external-wait blocker when isWaiting is false sets currentIntervalMs to
min (current + base) max, at most the max, and sets isWaiting to true;
reporting it while isWaiting is already true leaves currentIntervalMs
unchanged, so the step-up happens exactly once per transition. -/
theorem updateStateFromDialog_waiting
    (s : SessionState) (d : QuestionDialogResult)
    (hbm : s.baseIntervalMs ≤ s.maxIntervalMs)
    (hd : d.blockerType = BlockerType.waiting_for_person ∨
      d.blockerType = BlockerType.waiting_for_process) :
    (s.isWaiting = false →
      (updateStateFromDialog s d).currentIntervalMs
          = min (s.currentIntervalMs + s.baseIntervalMs) s.maxIntervalMs ∧
      (updateStateFromDialog s d).isWaiting = true ∧
      (updateStateFromDialog s d).currentIntervalMs ≤ s.maxIntervalMs) ∧
    (s.isWaiting = true →
      (updateStateFromDialog s d).currentIntervalMs = s.currentIntervalMs ∧
      (updateStateFromDialog s d).isWaiting = true) := by
  rcases hd with h | h <;>
    refine ⟨fun hw => ?_, fun hw => ?_⟩ <;>
      simp [updateStateFromDialog, h, hw, Nat.min_le_right]

/-- Witness for C1 at a concrete non-waiting state and person-wait report. -/
theorem updateStateFromDialog_waiting_witness :
    (idleBaseState.isWaiting = false →
      (updateStateFromDialog idleBaseState waitDialog).currentIntervalMs
          = min (idleBaseState.currentIntervalMs + idleBaseState.baseIntervalMs)
              idleBaseState.maxIntervalMs ∧
      (updateStateFromDialog idleBaseState waitDialog).isWaiting = true ∧
      (updateStateFromDialog idleBaseState waitDialog).currentIntervalMs ≤
        idleBaseState.maxIntervalMs) ∧
    (idleBaseState.isWaiting = true →
      (updateStateFromDialog idleBaseState waitDialog).currentIntervalMs =
        idleBaseState.currentIntervalMs ∧
      (updateStateFromDialog idleBaseState waitDialog).isWaiting = true) :=
  updateStateFromDialog_waiting idleBaseState waitDialog (by decide) (Or.inl rfl)

/-- C2 counterexample: on a state whose base interval exceeds its max
interval, reporting blocker type none drives currentIntervalMs above
maxIntervalMs, so the clamp is not re-asserted at this write path for all
input states. -/
theorem clamp_counterexample :
    ¬ ((updateStateFromDialog badState noneDialog).currentIntervalMs ≤
        (updateStateFromDialog badState noneDialog).maxIntervalMs) := by decide

/-- C2 amended: updateIntervalsFromConfig re-establishes
currentIntervalMs ≤ maxIntervalMs unconditionally, and updateStateFromDialog
preserves it for every dialog result provided the input state already
satisfies baseIntervalMs ≤ maxIntervalMs and currentIntervalMs ≤
maxIntervalMs. -/
theorem clamp_invariant
    (s : SessionState) (d : QuestionDialogResult)
    (h1 : s.baseIntervalMs ≤ s.maxIntervalMs)
    (h2 : s.currentIntervalMs ≤ s.maxIntervalMs) :
    (updateStateFromDialog s d).currentIntervalMs ≤
      (updateStateFromDialog s d).maxIntervalMs ∧
    ∀ (t : SessionState) (b m i : Nat),
      (updateIntervalsFromConfig t b m i).currentIntervalMs ≤
        (updateIntervalsFromConfig t b m i).maxIntervalMs := by
  constructor
  · rcases Decidable.em (d.blockerType = BlockerType.waiting_for_person ∨
        d.blockerType = BlockerType.waiting_for_process) with hd | hd
    · by_cases hw : s.isWaiting = false
      · rcases hd with h | h <;> simp [updateStateFromDialog, h, hw, Nat.min_le_right]
      · rcases hd with h | h <;> simp [updateStateFromDialog, h, hw, h2]
    · simp [updateStateFromDialog, hd, h1]
  · intro t b m i
    unfold updateIntervalsFromConfig
    simp [Nat.min_le_right]

/-- Witness for C2 at a concrete well-clamped state. -/
theorem clamp_invariant_witness :
    (updateStateFromDialog idleBaseState waitDialog).currentIntervalMs ≤
      (updateStateFromDialog idleBaseState waitDialog).maxIntervalMs ∧
    ∀ (t : SessionState) (b m i : Nat),
      (updateIntervalsFromConfig t b m i).currentIntervalMs ≤
        (updateIntervalsFromConfig t b m i).maxIntervalMs :=
  clamp_invariant idleBaseState waitDialog (by decide) (by decide)

/-- C3: for deduplicated snapshots, the classifier's isStuck is true
exactly when the two changed-file lists are equal as sets of paths,
independent of order, and swapping the two snapshots never changes
isStuck. -/
theorem isStuck_set_equality
    (prev cur : GitSnapshot)
    (hp : prev.changedFiles.Nodup) (hc : cur.changedFiles.Nodup) :
    ((compareWithLast (some prev) cur).isStuck = true ↔
        ∀ p, p ∈ prev.changedFiles ↔ p ∈ cur.changedFiles) ∧
    (compareWithLast (some prev) cur).isStuck =
      (compareWithLast (some cur) prev).isStuck := by
  constructor
  · rw [compareWithLast_isStuck_eq, arraysEqual_eq_true_iff_perm]
    exact List.perm_ext_iff_of_nodup hp hc
  · rw [compareWithLast_isStuck_eq, compareWithLast_isStuck_eq, Bool.eq_iff_iff,
      arraysEqual_eq_true_iff_perm, arraysEqual_eq_true_iff_perm]
    exact ⟨List.Perm.symm, List.Perm.symm⟩

/-- Witness for C3 on two snapshots holding the same files in swapped
insertion order. -/
theorem isStuck_set_equality_witness :
    ((compareWithLast (some snapPrevA) snapSwapped).isStuck = true ↔
        ∀ p, p ∈ snapPrevA.changedFiles ↔ p ∈ snapSwapped.changedFiles) ∧
    (compareWithLast (some snapPrevA) snapSwapped).isStuck =
      (compareWithLast (some snapSwapped) snapPrevA).isStuck :=
  isStuck_set_equality snapPrevA snapSwapped (by decide) (by decide)

/-- C4: after any non-empty sequence of activity signals, lastActivityAt
equals the timestamp of the most recent signal, the ping timer is
disarmed, and if a timer was armed at the start of the sequence then
pingScheduledAt has been cleared to null. -/
theorem recordActivity_spec (e : ExtState) (ts : List Nat) (h : ts ≠ []) :
    (List.foldl (fun a t => updateActivity t a) e ts).sessionState.lastActivityAt =
      ts.getLast h ∧
    (List.foldl (fun a t => updateActivity t a) e ts).pingTimeout = false ∧
    (e.pingTimeout = true →
      (List.foldl (fun a t => updateActivity t a) e ts).sessionState.pingScheduledAt =
        Option.none) := by
  induction ts generalizing e with
  | nil => exact absurd rfl h
  | cons t rest ih =>
    cases rest with
    | nil =>
      refine ⟨updateActivity_lastActivityAt t e, updateActivity_pingTimeout t e,
        fun harm => updateActivity_pingScheduledAt_of_armed t e harm⟩
    | cons t2 rest2 =>
      have hne : (t2 :: rest2) ≠ ([] : List Nat) := by simp
      obtain ⟨ih1, ih2, _⟩ := ih (updateActivity t e) hne
      refine ⟨?_, ?_, ?_⟩
      · rw [List.getLast_cons hne] at *
        simpa using ih1
      · simpa using ih2
      · intro harm
        have hrest := foldl_updateActivity_ps_none (t2 :: rest2) (updateActivity t e)
          (updateActivity_pingTimeout t e)
          (updateActivity_pingScheduledAt_of_armed t e harm)
        simpa using hrest.1

/-- Witness for C4 on an armed state and the signal sequence 5, 9. -/
theorem recordActivity_spec_witness :
    (List.foldl (fun a t => updateActivity t a) armedExt [5, 9]).sessionState.lastActivityAt = 9 ∧
    (List.foldl (fun a t => updateActivity t a) armedExt [5, 9]).pingTimeout = false ∧
    (List.foldl (fun a t => updateActivity t a) armedExt [5, 9]).sessionState.pingScheduledAt =
      Option.none := by
  obtain ⟨h1, h2, h3⟩ := recordActivity_spec armedExt [5, 9] (by decide)
  exact ⟨by simpa using h1, h2, h3 rfl⟩

/-- C5: a cancelled check-in dialog (no dialog result) leaves every
interval and blocker field of the session state unchanged and persists no
snapshot. -/
theorem cancelled_ping_no_mutation (e : ExtState) :
    (showPing e Option.none).finalState.sessionState.currentIntervalMs =
      e.sessionState.currentIntervalMs ∧
    (showPing e Option.none).finalState.sessionState.baseIntervalMs =
      e.sessionState.baseIntervalMs ∧
    (showPing e Option.none).finalState.sessionState.maxIntervalMs =
      e.sessionState.maxIntervalMs ∧
    (showPing e Option.none).finalState.sessionState.idleThresholdMs =
      e.sessionState.idleThresholdMs ∧
    (showPing e Option.none).finalState.sessionState.blockerType =
      e.sessionState.blockerType ∧
    (showPing e Option.none).finalState.sessionState.isWaiting =
      e.sessionState.isWaiting ∧
    (showPing e Option.none).finalState.sessionState.lastBlocker =
      e.sessionState.lastBlocker ∧
    (showPing e Option.none).snapshotPersisted = false :=
  ⟨rfl, rfl, rfl, rfl, rfl, rfl, rfl, rfl⟩

/-- C6 counterexample: two previous snapshots with different spec-side
removed-file sets produce identical comparison results, so the result
contains no removedFiles component at all. -/
theorem removedFiles_counterexample :
    compareWithLast (some snapPrevA) snapCur = compareWithLast (some snapPrevB) snapCur ∧
    specRemovedFiles snapPrevA.changedFiles snapCur.changedFiles ≠
      specRemovedFiles snapPrevB.changedFiles snapCur.changedFiles := by decide

/-- C6 amended: the comparison result contains newFiles equal to the set
difference current minus previous; the result carries no removedFiles
component. -/
theorem newFiles_set_difference (prev cur : GitSnapshot) (p : String) :
    p ∈ (compareWithLast (some prev) cur).newFiles ↔
      (p ∈ cur.changedFiles ∧ p ∉ prev.changedFiles) := by
  show p ∈ cur.changedFiles.filter (fun file => !(prev.changedFiles.contains file)) ↔ _
  simp

/-- C7 counterexample: on a non-waiting state whose current interval sits
above its base interval, reporting blocker type none changes
currentIntervalMs (it is reset to the base). -/
theorem none_report_counterexample :
    (updateStateFromDialog driftedState noneDialog).currentIntervalMs ≠
      driftedState.currentIntervalMs := by decide

/-- C7 amended: reporting blocker type none when isWaiting is false leaves
currentIntervalMs unchanged on every such state whose currentIntervalMs
already equals baseIntervalMs, the reset target. -/
theorem none_report_idempotent
    (s : SessionState) (d : QuestionDialogResult)
    (hw : s.isWaiting = false)
    (hcb : s.currentIntervalMs = s.baseIntervalMs)
    (hd : d.blockerType = BlockerType.none) :
    (updateStateFromDialog s d).currentIntervalMs = s.currentIntervalMs := by
  simp [updateStateFromDialog, hd, hcb]

/-- Witness for C7 at a concrete non-waiting state at its base interval. -/
theorem none_report_idempotent_witness :
    (updateStateFromDialog idleBaseState noneDialog).currentIntervalMs =
      idleBaseState.currentIntervalMs :=
  none_report_idempotent idleBaseState noneDialog rfl rfl rfl

/-- C8: with no previous snapshot the classifier reports first-run:
isStuck is false, newFiles is the whole current changed-file list, and
hasChanges holds exactly when that list is non-empty. -/
theorem first_run_classification (cur : GitSnapshot) :
    (compareWithLast Option.none cur).isStuck = false ∧
    (compareWithLast Option.none cur).newFiles = cur.changedFiles ∧
    ((compareWithLast Option.none cur).hasChanges = true ↔ cur.changedFiles ≠ []) := by
  refine ⟨rfl, rfl, ?_⟩
  show decide (cur.changedFiles.length > 0) = true ↔ _
  simp [List.length_pos]

/-- C9: when the chosen change-set provider fails, getChangedFiles returns
the empty list instead of propagating the error, and the snapshot built
from it has no changed files. -/
theorem provider_failure_empty (msg : String)
    (other : Except String (List String)) (now : Nat) (s : String) :
    getChangedFiles true (Except.error msg) other = [] ∧
    getChangedFiles false other (Except.error msg) = [] ∧
    (getCurrentSnapshot now true (Except.error msg) other s).changedFiles = [] ∧
    (getCurrentSnapshot now false other (Except.error msg) s).changedFiles = [] :=
  ⟨rfl, rfl, rfl, rfl⟩

/-- C10: loading the session state always yields a null pingScheduledAt
and a lastActivityAt equal to the load time, whatever was stored or if
nothing was stored, and every stored duration field equal to zero is
replaced by its default. -/
theorem loadState_resets_runtime_fields (st : StoredState) (now : Nat) :
    (loadState (some st) now).pingScheduledAt = Option.none ∧
    (loadState Option.none now).pingScheduledAt = Option.none ∧
    (loadState (some st) now).lastActivityAt = now ∧
    (loadState Option.none now).lastActivityAt = now ∧
    (loadState (some { st with baseIntervalMs := some 0 }) now).baseIntervalMs =
      15 * 60 * 1000 ∧
    (loadState (some { st with currentIntervalMs := some 0 }) now).currentIntervalMs =
      15 * 60 * 1000 ∧
    (loadState (some { st with maxIntervalMs := some 0 }) now).maxIntervalMs =
      60 * 60 * 1000 ∧
    (loadState (some { st with idleThresholdMs := some 0 }) now).idleThresholdMs =
      3 * 60 * 1000 :=
  ⟨rfl, rfl, rfl, rfl, rfl, rfl, rfl, rfl⟩
